import Mathlib

/-!
Verification of the CreatorPulse content-curation backend against its
natural-language specification.  Each Python function named in a claim is
shallowly embedded as an executable Lean definition, translated from the
source in `src/`; theorems about those definitions settle the claims.

Conventions used throughout:
* Python strings are Lean `String`s (lists of characters); `dict` rows
  become structures whose fields are the columns the embedded code touches.
* Database tables are explicit lists of rows passed as arguments; a
  supabase query chain (`.eq`, `.gte`, `.in_`) becomes a `List.filter`.
* Wall-clock values (`datetime.now()`) are passed in as parameters.
* Python float values are modelled as rationals (`ℚ`).
* Calls to the LLM completion endpoint are modelled by an oracle record of
  abstract response functions, and the number of completion calls made is
  returned alongside the result.
-/

/-- ASCII word character, the `\w` class of Python's `re` module
(letters, digits, underscore). -/
def isWordChar (c : Char) : Bool := c.isAlphanum || c == '_'

/-- Python's `str.lower()` (character-wise lower-casing). -/
def strLower (s : String) : String := String.mk (s.data.map Char.toLower)

/-- Split a character list into maximal whitespace-free words, the
behaviour of Python's `str.split()` with no separator argument. -/
def splitWsAux : List Char → List Char → List String
  | [], acc => if acc.isEmpty then [] else [String.mk acc.reverse]
  | c :: rest, acc =>
      if c.isWhitespace then
        if acc.isEmpty then splitWsAux rest []
        else String.mk acc.reverse :: splitWsAux rest []
      else splitWsAux rest (c :: acc)

def splitWs (l : List Char) : List String := splitWsAux l []

/-- Model of `clean_title_for_comparison` (content_aggregator.py): lower-case the
title, delete every character that is neither a word character nor
whitespace (the regex `[^\w\s]`), split on whitespace and keep the first
five words, joined by single spaces. -/
def clean_title_for_comparison (title : String) : String :=
  let lowered := strLower title
  let kept := lowered.data.filter (fun c => isWordChar c || c.isWhitespace)
  String.intercalate (" ") ((splitWs kept).take 5)

/-- A normalized content item produced by the aggregator
(content_aggregator.py).  `likes` models the optional
`engagement.likes` sub-field (0 when absent, as `dict.get` defaults). -/
structure Article where
  title : String
  link : String
  summary : String
  published : String
  author : String
  source : String
  tags : List String
  likes : Nat
deriving DecidableEq, Repr

/-- The deduplication key of `remove_duplicate_articles`: the link when
non-empty (Python truthiness of `if link:`), otherwise
`{cleaned-title}|{source}`. -/
def articleKey (a : Article) : String :=
  if a.link ≠ "" then a.link
  else clean_title_for_comparison a.title ++ "|" ++ a.source

/-- Loop body of `remove_duplicate_articles`: walk the list keeping the
first article carrying each key, accumulating the set of seen keys. -/
def removeDupAux : List Article → List String → List Article
  | [], _ => []
  | a :: rest, seen =>
      if articleKey a ∈ seen then removeDupAux rest seen
      else a :: removeDupAux rest (articleKey a :: seen)

/-- Model of `remove_duplicate_articles` (content_aggregator.py). -/
def remove_duplicate_articles (articles : List Article) : List Article :=
  removeDupAux articles []

lemma removeDupAux_sublist (l : List Article) (seen : List String) :
    (removeDupAux l seen).Sublist l := by
  induction l generalizing seen with
  | nil => simp [removeDupAux]
  | cons a rest ih =>
      simp only [removeDupAux]
      split
      · exact (ih seen).cons a
      · exact (ih _).cons₂ a

lemma removeDupAux_key_not_seen (l : List Article) (seen : List String) :
    ∀ b ∈ removeDupAux l seen, articleKey b ∉ seen := by
  induction l generalizing seen with
  | nil => simp [removeDupAux]
  | cons a rest ih =>
      intro b hb
      simp only [removeDupAux] at hb
      split at hb
      · exact ih seen b hb
      · rcases List.mem_cons.mp hb with hb | hb
        · subst hb; assumption
        · intro hmem
          exact ih _ b hb (List.mem_cons_of_mem _ hmem)

lemma removeDupAux_nodup_keys (l : List Article) (seen : List String) :
    ((removeDupAux l seen).map articleKey).Nodup := by
  induction l generalizing seen with
  | nil => simp [removeDupAux]
  | cons a rest ih =>
      simp only [removeDupAux]
      split
      · exact ih seen
      · refine List.nodup_cons.mpr ⟨?_, ih _⟩
        intro hmem
        rcases List.mem_map.mp hmem with ⟨b, hb, hkey⟩
        exact removeDupAux_key_not_seen rest _ b hb (by simp [hkey])

lemma removeDupAux_of_nodup (l : List Article) (seen : List String)
    (hnd : (l.map articleKey).Nodup)
    (hdisj : ∀ a ∈ l, articleKey a ∉ seen) :
    removeDupAux l seen = l := by
  induction l generalizing seen with
  | nil => simp [removeDupAux]
  | cons a rest ih =>
      rw [List.map_cons, List.nodup_cons] at hnd
      simp only [removeDupAux]
      rw [if_neg (hdisj a (List.mem_cons_self a rest))]
      congr 1
      apply ih
      · exact hnd.2
      · intro b hb
        simp only [List.mem_cons, not_or]
        constructor
        · intro hkey
          exact hnd.1 (by
            rw [← hkey]
            exact List.mem_map_of_mem articleKey hb)
        · exact hdisj b (List.mem_cons_of_mem a hb)

lemma removeDupAux_first_occurrence (l : List Article) (seen : List String) :
    ∀ b ∈ removeDupAux l seen,
      l.find? (fun x => articleKey x == articleKey b) = some b := by
  induction l generalizing seen with
  | nil => simp [removeDupAux]
  | cons a rest ih =>
      intro b hb
      simp only [removeDupAux] at hb
      split at hb
      · have hseen : articleKey b ∉ seen := removeDupAux_key_not_seen rest seen b hb
        have hne : (articleKey a == articleKey b) = false := by
          simp only [beq_eq_false_iff_ne, ne_eq]
          intro h
          exact hseen (by rw [← h]; assumption)
        simp only [List.find?_cons, hne]
        exact ih seen b hb
      · rcases List.mem_cons.mp hb with hb | hb
        · subst hb
          simp [List.find?_cons]
        · have hseen : articleKey b ∉ articleKey a :: seen :=
            removeDupAux_key_not_seen rest _ b hb
          have hne : (articleKey a == articleKey b) = false := by
            simp only [beq_eq_false_iff_ne, ne_eq]
            intro h
            exact hseen (by rw [h]; exact List.mem_cons_self _ _)
          simp only [List.find?_cons, hne]
          exact ih _ b hb

/-- C6.  `remove_duplicate_articles` is idempotent, every key in its
output is unique, the output is a sublist of the input, and each retained
article is the first occurrence of its key in the input. -/
theorem remove_duplicate_articles_idempotent_unique (L : List Article) :
    remove_duplicate_articles (remove_duplicate_articles L) =
      remove_duplicate_articles L ∧
    ((remove_duplicate_articles L).map articleKey).Nodup ∧
    (remove_duplicate_articles L).Sublist L ∧
    (∀ b ∈ remove_duplicate_articles L,
      L.find? (fun x => articleKey x == articleKey b) = some b) := by
  refine ⟨?_, removeDupAux_nodup_keys L [], removeDupAux_sublist L [],
    removeDupAux_first_occurrence L []⟩
  exact removeDupAux_of_nodup _ [] (removeDupAux_nodup_keys L []) (by simp)

/-! ### Persistence layer (models.py) and feedback recording (feedback_system.py) -/

/-- A row of the `newsletters` table.  Only the columns the embedded
operations read or write are modelled. -/
structure NewsletterRow where
  id : String
  user_id : String
  status : String
  created_at : String
  accepted_at : Option String
deriving DecidableEq, Repr

/-- A row of the `user_sources` table. -/
structure SourceRow where
  id : String
  user_id : String
  url : String
  type : String
  active : Bool
  created_at : String
deriving DecidableEq, Repr

/-- A row of the `newsletter_feedback` table, as inserted by
`record_feedback`.  The `edit_diff` JSON computed by difflib (a boundary
library) is not modelled; `was_edited` records whether both contents were
supplied. -/
structure FeedbackRow where
  newsletter_id : String
  user_id : String
  reaction : String
  created_at : String
  was_edited : Bool
deriving DecidableEq, Repr

/-- Model of `fetch_newsletters` (models.py): all rows of `newsletters` whose
`user_id` matches.  The `created_at` descending ordering of the backend
query is not modelled; every claim about this function is
order-insensitive except for `last_newsletter_date`, which here refers to
the head of the stored order. -/
def fetch_newsletters (ndb : List NewsletterRow) (uid : String) :
    List NewsletterRow :=
  ndb.filter (fun r => r.user_id == uid)

/-- Model of `get_user_sources` (models.py): rows of `user_sources` with matching
`user_id` and `active = true` (ordering not modelled, as above). -/
def get_user_sources (sdb : List SourceRow) (uid : String) : List SourceRow :=
  sdb.filter (fun r => r.user_id == uid && r.active)

/-- The per-row effect of `update_newsletter` (models.py): the column
updates `f` are applied only to a row matching both the primary key and
the `user_id`. -/
def updateNewsletterRow (nid uid : String) (f : NewsletterRow → NewsletterRow)
    (r : NewsletterRow) : NewsletterRow :=
  if r.id == nid && r.user_id == uid then f r else r

/-- Model of `update_newsletter` (models.py): apply the column updates `f` to every
row matching both the primary key and the `user_id`; the returned flag is
the truthiness of the backend's list of updated rows. -/
def update_newsletter (ndb : List NewsletterRow) (nid : String)
    (f : NewsletterRow → NewsletterRow) (uid : String) :
    List NewsletterRow × Bool :=
  (ndb.map (updateNewsletterRow nid uid f),
   ndb.any (fun r => r.id == nid && r.user_id == uid))

/-- The newsletter-status update performed inside `record_feedback`
(feedback_system.py): `supabase.table("newsletters").update({status:
"accepted", accepted_at: now}).eq("id", newsletter_id)` — filtered by the
primary key only, with no `user_id` condition. -/
def recordFeedbackStatusUpdate (ndb : List NewsletterRow) (nid now : String) :
    List NewsletterRow :=
  ndb.map (fun r =>
    if r.id == nid then { r with status := "accepted", accepted_at := some now }
    else r)

/-- Model of `record_feedback` (feedback_system.py): insert a feedback row, then —
when the reaction is `accepted` or `thumbs_up` — set the owning
newsletter's status to `accepted` via the primary-key-only update above.
Returns the feedback table, the newsletters table, and the success flag. -/
def record_feedback (fdb : List FeedbackRow) (ndb : List NewsletterRow)
    (nid uid reaction : String) (edited original : Option String)
    (now : String) : List FeedbackRow × List NewsletterRow × Bool :=
  let row : FeedbackRow :=
    { newsletter_id := nid, user_id := uid, reaction := reaction,
      created_at := now,
      was_edited := edited.isSome && original.isSome }
  let fdb' := fdb ++ [row]
  let ndb' :=
    if reaction == "accepted" || reaction == "thumbs_up" then
      recordFeedbackStatusUpdate ndb nid now
    else ndb
  (fdb', ndb', true)

/-- C1 counterexample.  A newsletter owned by `userB` is mutated to
`accepted` by a `record_feedback` call made on behalf of `userA`: the
status update inside `record_feedback` does not filter by `user_id`, so
the claim that every write on a user-owned row filters by `user_id` is
false on the code. -/
theorem record_feedback_cross_user_counterexample :
    let row : NewsletterRow :=
      { id := "n1", user_id := "userB", status := "draft",
        created_at := "2024-01-01", accepted_at := none }
    let result := record_feedback [] [row] "n1" "userA" "accepted"
      none none ("2024-02-02")
    result.2.1 = [{ id := "n1", user_id := "userB", status := "accepted",
                    created_at := "2024-01-01",
                    accepted_at := some ("2024-02-02") }] ∧
    "userB" ≠ "userA" := by
  constructor
  · rfl
  · decide

/-- C1 amended.  The persistence layer's `update_newsletter` filters by
`user_id` in addition to the primary key — a row whose `user_id` differs
from the caller's is mapped to itself, even when its primary key matches —
but the status update inside `record_feedback` filters by the newsletter
id only: an accepting reaction sets the status of every row with that id
to `accepted` regardless of its owner. -/
theorem record_feedback_update_scoping
    (ndb : List NewsletterRow) (nid uid now : String)
    (f : NewsletterRow → NewsletterRow) (r : NewsletterRow) :
    (r.user_id ≠ uid → updateNewsletterRow nid uid f r = r) ∧
    ((update_newsletter ndb nid f uid).1 =
      ndb.map (updateNewsletterRow nid uid f)) ∧
    (r ∈ ndb → r.id = nid →
      { r with status := "accepted", accepted_at := some now } ∈
        (record_feedback [] ndb nid uid ("accepted") none none now).2.1) := by
  refine ⟨fun hne => ?_, rfl, fun hmem hid => ?_⟩
  · have : (r.user_id == uid) = false := by simp [hne]
    simp [updateNewsletterRow, this]
  · have : (r.id == nid) = true := by simp [hid]
    simp only [record_feedback, recordFeedbackStatusUpdate]
    rw [if_pos (by simp)]
    exact List.mem_map.mpr ⟨r, hmem, by simp [this]⟩

/-- Witness for C1 amended: instantiated on a one-row table owned by
`userB` with caller `userA`. -/
theorem record_feedback_update_scoping_witness :
    let row : NewsletterRow :=
      { id := "n1", user_id := "userB", status := "draft",
        created_at := "2024-01-01", accepted_at := none }
    updateNewsletterRow ("n1") ("userA") id row = row ∧
    { row with status := "accepted", accepted_at := some ("t") } ∈
      (record_feedback [] [row] "n1" "userA" "accepted" none none ("t")).2.1 := by
  intro row
  refine ⟨(record_feedback_update_scoping [row] ("n1") ("userA") ("t") id row).1
    (by decide),
    (record_feedback_update_scoping [row] ("n1") ("userA") ("t") id row).2.2
    (by simp) rfl⟩

/-- The aggregate statistics returned by `get_user_stats` (models.py). -/
structure UserStats where
  total_newsletters : Nat
  draft_newsletters : Nat
  published_newsletters : Nat
  total_sources : Nat
  active_sources : Nat
  last_newsletter_date : Option String
deriving Repr

/-- Model of `get_user_stats` (models.py): recomputes the KPI counts by re-reading
the user's newsletters and sources through `fetch_newsletters` and
`get_user_sources`. -/
def get_user_stats (ndb : List NewsletterRow) (sdb : List SourceRow)
    (uid : String) : UserStats :=
  let newsletters := fetch_newsletters ndb uid
  let sources := get_user_sources sdb uid
  { total_newsletters := newsletters.length
    draft_newsletters := (newsletters.filter (fun n => n.status == "draft")).length
    published_newsletters :=
      (newsletters.filter (fun n => n.status == "published")).length
    total_sources := sources.length
    active_sources := (sources.filter (fun s => s.active)).length
    last_newsletter_date := (newsletters.head?).map (fun n => n.created_at) }

/-- C10.  `get_user_sources` only returns rows with `active = true`, so
the `active`-flag filter inside `get_user_stats` keeps every row and the
two KPI counts coincide for every database state and user. -/
theorem get_user_stats_active_eq_total (ndb : List NewsletterRow)
    (sdb : List SourceRow) (uid : String) :
    (get_user_stats ndb sdb uid).active_sources =
      (get_user_stats ndb sdb uid).total_sources := by
  simp only [get_user_stats, get_user_sources]
  rw [List.filter_filter]
  congr 1
  apply List.filter_congr
  intro r _
  cases h : r.active <;> simp [h]

/-! ### Scheduler (scheduler_service.py and app.py) -/

/-- A row of the `scheduled_deliveries` table. -/
structure ScheduledDelivery where
  user_id : String
  schedule_time : String
  timezone : String
  delivery_method : String
  is_active : Bool
  last_delivered_at : Option String
deriving DecidableEq, Repr

/-- The rows the loop body of `check_and_send_scheduled_newsletters`
(scheduler_service.py) iterates over: the backend query filters
`is_active = true`, so only active rows are ever evaluated. -/
def evaluatedSchedules (db : List ScheduledDelivery) : List ScheduledDelivery :=
  db.filter (fun s => s.is_active)

/-- Model of `check_and_send_scheduled_newsletters` (scheduler_service.py), as the
set of rows for which `generate_and_send_newsletter` is invoked: among the
active rows, those whose `schedule_time[:5]` (HH:MM) equals the current
wall-clock HH:MM string. -/
def check_and_send_scheduled_newsletters (db : List ScheduledDelivery)
    (currentTime : String) : List ScheduledDelivery :=
  (evaluatedSchedules db).filter (fun s => s.schedule_time.take 5 == currentTime)

/-- The in-process variant `check_and_send_scheduled` inside
`background_scheduler` (app.py): the same active-rows query and the same
`schedule_time[:5] == current_time` trigger condition. -/
def backgroundSchedulerCheck (db : List ScheduledDelivery)
    (currentTime : String) : List ScheduledDelivery :=
  (db.filter (fun s => s.is_active)).filter
    (fun s => s.schedule_time.take 5 == currentTime)

/-- C9.  A schedule row triggers newsletter generation exactly when it is
active and its stored `schedule_time`'s first five characters (HH:MM)
equal the current wall-clock HH:MM; an inactive row is never among the
rows evaluated for a time match; and both scheduler implementations
trigger the same rows. -/
theorem scheduler_time_match (db : List ScheduledDelivery)
    (currentTime : String) (s : ScheduledDelivery) :
    (s ∈ check_and_send_scheduled_newsletters db currentTime ↔
      s ∈ db ∧ s.is_active = true ∧ s.schedule_time.take 5 = currentTime) ∧
    (s ∈ evaluatedSchedules db → s.is_active = true) ∧
    backgroundSchedulerCheck db currentTime =
      check_and_send_scheduled_newsletters db currentTime := by
  refine ⟨?_, ?_, rfl⟩
  · simp only [check_and_send_scheduled_newsletters, evaluatedSchedules,
      List.mem_filter, beq_iff_eq, and_assoc]
  · intro hmem
    exact (List.mem_filter.mp hmem).2

/-- Witness for C9: a single active row with `schedule_time` "08:00:00"
triggers at current time "08:00" and does not trigger at "08:01". -/
theorem scheduler_time_match_witness :
    let s : ScheduledDelivery :=
      { user_id := "u1", schedule_time := "08:00:00", timezone := "UTC",
        delivery_method := "email", is_active := true,
        last_delivered_at := none }
    s ∈ check_and_send_scheduled_newsletters [s] "08:00" ∧
    s ∉ check_and_send_scheduled_newsletters [s] "08:01" := by
  intro s
  constructor
  · exact (scheduler_time_match [s] "08:00" s).1.mpr
      ⟨by simp, rfl, by decide⟩
  · intro hmem
    have h := ((scheduler_time_match [s] "08:01" s).1.mp hmem).2.2
    revert h
    decide

/-! ### Style trainer (style_trainer.py): tone detection

The tone patterns use a tiny fragment of the regex language: literal
characters and the word-boundary assertion `\b`.  The matcher below
implements exactly that fragment with `re.findall`'s left-to-right,
non-overlapping scan. -/

/-- One atom of a tone pattern: the `\b` word-boundary assertion or a
literal character. -/
inductive RAtom where
  | bnd : RAtom
  | ch : Char → RAtom
deriving DecidableEq, Repr

/-- Whether an optional preceding character is a word character. -/
def prevIsWord : Option Char → Bool
  | some c => isWordChar c
  | none => false

/-- Whether the next character of the remaining input is a word
character (false at end of input). -/
def headIsWord : List Char → Bool
  | c :: _ => isWordChar c
  | [] => false

/-- Try to match a pattern at the current position.  `prev` is the
character immediately before the position (none at the start of the
input).  On success, returns the new `prev` and the remaining input. -/
def matchAtoms : List RAtom → Option Char → List Char →
    Option (Option Char × List Char)
  | [], prev, rest => some (prev, rest)
  | .bnd :: ps, prev, rest =>
      if prevIsWord prev != headIsWord rest then matchAtoms ps prev rest
      else none
  | .ch c :: ps, _, rest =>
      match rest with
      | [] => none
      | d :: rest' => if d == c then matchAtoms ps (some d) rest' else none

/-- Model of `re.findall` count: scan left to right, counting non-overlapping
matches; on a failed match advance one character.  The fuel argument (one
more than the input length suffices) makes the recursion structural. -/
def scanCount (p : List RAtom) : Nat → Option Char → List Char → Nat
  | 0, _, _ => 0
  | _ + 1, prev, [] =>
      match matchAtoms p prev [] with
      | some _ => 1
      | none => 0
  | fuel + 1, prev, c :: rest =>
      match matchAtoms p prev (c :: rest) with
      | some (prev', rem) =>
          if rem.length < rest.length + 1 then 1 + scanCount p fuel prev' rem
          else 1 + scanCount p fuel (some c) rest
      | none => scanCount p fuel (some c) rest

/-- Number of matches of a pattern in a string. -/
def countMatches (p : List RAtom) (s : String) : Nat :=
  scanCount p (s.length + 1) none s.data

/-- A `\b word \b` pattern. -/
def wordPat (w : String) : List RAtom :=
  RAtom.bnd :: (w.data.map RAtom.ch ++ [RAtom.bnd])

/-- A plain literal pattern. -/
def litPat (w : String) : List RAtom := w.data.map RAtom.ch

/-- The four tone pattern sets of `detect_tone_indicators`
(style_trainer.py), in the dict's insertion order. -/
def tone_patterns : List (String × List (List RAtom)) :=
  [("casual",
    [wordPat ("you"), wordPat ("your"), litPat ("let\x27s"),
     RAtom.bnd :: litPat ("guy"), wordPat ("folks"), wordPat ("hey")]),
   ("professional",
    [wordPat ("moreover"), wordPat ("therefore"), wordPat ("however"),
     wordPat ("furthermore")]),
   ("enthusiastic",
    [litPat ("!"), wordPat ("amazing"), wordPat ("exciting"),
     wordPat ("incredible"), wordPat ("love")]),
   ("analytical",
    [wordPat ("data"), wordPat ("analysis"), wordPat ("research"),
     wordPat ("study"), wordPat ("shows")])]

/-- Total match count of one tone's pattern set over the lower-cased
text. -/
def toneScore (patterns : List (List RAtom)) (textLower : String) : Nat :=
  patterns.foldl (fun acc p => acc + countMatches p textLower) 0

/-- The `tone_scores` dict of `detect_tone_indicators`, in insertion
order. -/
def toneScores (text : String) : List (String × Nat) :=
  tone_patterns.map (fun tp => (tp.1, toneScore tp.2 (strLower text)))

/-- Python's `max(tone_scores, key=tone_scores.get)`: the first key
attaining the maximal value (a later key replaces the current best only
when strictly greater). -/
def maxKeyAux : List (String × Nat) → String × Nat → String
  | [], best => best.1
  | kv :: rest, best =>
      if kv.2 > best.2 then maxKeyAux rest kv else maxKeyAux rest best

/-- Result of `detect_tone_indicators`. -/
structure ToneResult where
  dominant_tone : String
  scores : List (String × Nat)
deriving DecidableEq, Repr

/-- Model of `detect_tone_indicators` (style_trainer.py): score the four tone
pattern sets over the lower-cased text; if the (always four-entry) score
dict is non-empty the dominant tone is its argmax, otherwise "neutral"
with empty scores. -/
def detect_tone_indicators (text : String) : ToneResult :=
  let scores := toneScores text
  match scores with
  | [] => { dominant_tone := "neutral", scores := [] }
  | kv :: rest => { dominant_tone := maxKeyAux rest kv, scores := scores }

/-- C3 counterexample.  On the empty text no pattern of any of the four
tone sets matches — all four scores are zero — yet `detect_tone_indicators`
returns dominant tone "casual", not "neutral": the scores dict always has
four entries, so the "neutral" branch is unreachable and `max` resolves
the all-zero tie to the first key in insertion order. -/
theorem detect_tone_indicators_all_zero_counterexample :
    (toneScores ("")).all (fun kv => kv.2 == 0) ∧
    (detect_tone_indicators ("")).dominant_tone = "casual" ∧
    "casual" ≠ "neutral" := by
  refine ⟨by decide, by decide, by decide⟩

/-- C3 amended.  Whenever all four tone scores are zero,
`detect_tone_indicators` returns dominant tone "casual" — the first
category in the dict's iteration order — and never "neutral"; the
"neutral" default is only reachable from an empty pattern dict, which the
code never constructs. -/
theorem detect_tone_indicators_all_zero (text : String)
    (h : ∀ kv ∈ toneScores text, kv.2 = 0) :
    (detect_tone_indicators text).dominant_tone = "casual" := by
  simp only [toneScores, tone_patterns, List.map_cons, List.map_nil,
    List.mem_cons, List.not_mem_nil, or_false, forall_eq_or_imp,
    forall_eq] at h
  obtain ⟨h1, h2, h3, h4⟩ := h
  simp only [detect_tone_indicators, toneScores, tone_patterns,
    List.map_cons, List.map_nil]
  simp [maxKeyAux, h2, h3, h4]

/-- Witness for C3 amended: the empty text has all-zero scores and is
classified "casual". -/
theorem detect_tone_indicators_all_zero_witness :
    (detect_tone_indicators ("")).dominant_tone = "casual" :=
  detect_tone_indicators_all_zero ("") (by decide)

/-! ### Engagement analytics (feedback_system.py) -/

/-- Lexicographic string order on code points, the comparison the backend
applies to ISO-8601 timestamp strings in a `.gte` filter. -/
def lexLe : List Char → List Char → Bool
  | [], _ => true
  | _ :: _, [] => false
  | a :: as, b :: bs => if a == b then lexLe as bs else decide (a < b)

def strLe (a b : String) : Bool := lexLe a.data b.data

/-- A row of the `newsletter_metrics` table.  Metric values are Python
floats, modelled as rationals. -/
structure MetricRow where
  newsletter_id : String
  metric_type : String
  value : ℚ
deriving DecidableEq, Repr

/-- Result of `get_engagement_analytics`.  `total_sent` is absent
(`none`) on the two early "no_data" returns. -/
structure EngagementAnalytics where
  avg_open_rate : ℚ
  avg_click_rate : ℚ
  total_sent : Option Nat
  trend : String

/-- Python's `round(x, 1)`, modelled as exact decimal rounding half to
even on rationals (the binary-float representation effects of the real
`round` are out of scope). -/
def pyRound1 (q : ℚ) : ℚ :=
  let x := q * 10
  let fl : ℤ := ⌊x⌋
  let fr : ℚ := x - fl
  let n : ℤ :=
    if fr < 1/2 then fl
    else if fr > 1/2 then fl + 1
    else if fl % 2 = 0 then fl else fl + 1
  (n : ℚ) / 10

/-- The newsletters query of `get_engagement_analytics`: the user's rows
with `created_at ≥ since_date`. -/
def newslettersInWindow (ndb : List NewsletterRow) (uid since : String) :
    List NewsletterRow :=
  ndb.filter (fun r => r.user_id == uid && strLe since r.created_at)

/-- The metrics query of `get_engagement_analytics`: rows whose
`newsletter_id` is among the given ids. -/
def metricsForNewsletters (mdb : List MetricRow) (ids : List String) :
    List MetricRow :=
  mdb.filter (fun m => ids.contains m.newsletter_id)

/-- The `open_rate` sample list extracted from the fetched metrics. -/
def openRatesOf (metrics : List MetricRow) : List ℚ :=
  (metrics.filter (fun m => m.metric_type == "open_rate")).map
    (fun m => m.value)

/-- The `click_rate` sample list extracted from the fetched metrics. -/
def clickRatesOf (metrics : List MetricRow) : List ℚ :=
  (metrics.filter (fun m => m.metric_type == "click_rate")).map
    (fun m => m.value)

/-- Model of `recent_avg` of the trend computation: mean of the last three
open-rate samples (`open_rates[-3:]`). -/
def recentAvgOf (l : List ℚ) : ℚ :=
  (l.drop (l.length - 3)).sum / (min (l.drop (l.length - 3)).length 3 : ℚ)

/-- Model of `older_avg` of the trend computation: mean of `open_rates[:-3]` when
more than three samples exist, otherwise `recent_avg` itself. -/
def olderAvgOf (l : List ℚ) : ℚ :=
  if l.length > 3 then
    (l.take (l.length - 3)).sum / (max (l.take (l.length - 3)).length 1 : ℚ)
  else recentAvgOf l

/-- The trend classification of `get_engagement_analytics`: `trend` is
initialised to "stable" and only overwritten when at least two open-rate
samples exist and the recent mean deviates more than 10% from the older
mean. -/
def trendOf (l : List ℚ) : String :=
  if l.length ≥ 2 then
    if recentAvgOf l > olderAvgOf l * (11 / 10) then "improving"
    else if recentAvgOf l < olderAvgOf l * (9 / 10) then "declining"
    else "stable"
  else "stable"

/-- Model of `get_engagement_analytics` (feedback_system.py): fetch the user's
newsletters in the window, then all metrics for those ids; return
"no_data" if either list is empty, otherwise the rounded averages, the
newsletter count and the trend classification. -/
def get_engagement_analytics (ndb : List NewsletterRow)
    (mdb : List MetricRow) (uid since : String) : EngagementAnalytics :=
  if (newslettersInWindow ndb uid since).isEmpty then
    { avg_open_rate := 0, avg_click_rate := 0, total_sent := none,
      trend := "no_data" }
  else if (metricsForNewsletters mdb
      ((newslettersInWindow ndb uid since).map (fun n => n.id))).isEmpty then
    { avg_open_rate := 0, avg_click_rate := 0, total_sent := none,
      trend := "no_data" }
  else
    { avg_open_rate :=
        if !(openRatesOf (metricsForNewsletters mdb
            ((newslettersInWindow ndb uid since).map (fun n => n.id)))).isEmpty
        then
          pyRound1 ((openRatesOf (metricsForNewsletters mdb
              ((newslettersInWindow ndb uid since).map (fun n => n.id)))).sum /
            ((openRatesOf (metricsForNewsletters mdb
              ((newslettersInWindow ndb uid since).map
                (fun n => n.id)))).length : ℚ))
        else 0
      avg_click_rate :=
        if !(clickRatesOf (metricsForNewsletters mdb
            ((newslettersInWindow ndb uid since).map (fun n => n.id)))).isEmpty
        then
          pyRound1 ((clickRatesOf (metricsForNewsletters mdb
              ((newslettersInWindow ndb uid since).map (fun n => n.id)))).sum /
            ((clickRatesOf (metricsForNewsletters mdb
              ((newslettersInWindow ndb uid since).map
                (fun n => n.id)))).length : ℚ))
        else 0
      total_sent :=
        some ((newslettersInWindow ndb uid since).map (fun n => n.id)).length
      trend :=
        trendOf (openRatesOf (metricsForNewsletters mdb
          ((newslettersInWindow ndb uid since).map (fun n => n.id)))) }

lemma get_engagement_analytics_trend_eq (ndb : List NewsletterRow)
    (mdb : List MetricRow) (uid since : String) :
    (get_engagement_analytics ndb mdb uid since).trend =
      if (newslettersInWindow ndb uid since).isEmpty then "no_data"
      else if (metricsForNewsletters mdb
          ((newslettersInWindow ndb uid since).map (fun n => n.id))).isEmpty
        then "no_data"
      else trendOf (openRatesOf (metricsForNewsletters mdb
        ((newslettersInWindow ndb uid since).map (fun n => n.id)))) := by
  unfold get_engagement_analytics
  split
  · rfl
  · split
    · rfl
    · rfl

/-- C2 counterexample.  A user with one newsletter in the window and a
single open_rate metric — so newsletters and metrics both exist but fewer
than 2 open_rate samples — gets trend "stable", not the "no_data" the
claim requires; "stable" is thus returned with fewer than 2 samples. -/
theorem get_engagement_analytics_one_sample_counterexample :
    let ndb : List NewsletterRow :=
      [{ id := "n1", user_id := "u1", status := "sent",
         created_at := "2024-01-02", accepted_at := none }]
    let mdb : List MetricRow :=
      [{ newsletter_id := "n1", metric_type := "open_rate", value := 50 }]
    newslettersInWindow ndb ("u1") ("2024-01-01") ≠ [] ∧
    metricsForNewsletters mdb
      ((newslettersInWindow ndb ("u1") ("2024-01-01")).map (fun n => n.id)) ≠ [] ∧
    (openRatesOf (metricsForNewsletters mdb
      ((newslettersInWindow ndb ("u1") ("2024-01-01")).map (fun n => n.id)))).length
      = 1 ∧
    (get_engagement_analytics ndb mdb ("u1") ("2024-01-01")).trend = "stable" ∧
    "stable" ≠ "no_data" := by
  refine ⟨by decide, by decide, by decide, ?_, by decide⟩
  rw [get_engagement_analytics_trend_eq]
  decide

lemma trendOf_mem (l : List ℚ) :
    trendOf l = "improving" ∨ trendOf l = "declining" ∨
      trendOf l = "stable" := by
  unfold trendOf
  split
  · split
    · exact Or.inl rfl
    · split
      · exact Or.inr (Or.inl rfl)
      · exact Or.inr (Or.inr rfl)
  · exact Or.inr (Or.inr rfl)

lemma trendOf_short (l : List ℚ) (h : l.length < 2) :
    trendOf l = "stable" := by
  unfold trendOf
  rw [if_neg (by omega)]

/-- C2 amended.  `get_engagement_analytics` returns trend "no_data"
exactly when the user has no newsletters in the window or those
newsletters have no metrics at all; when metrics exist but fewer than 2
open_rate samples do, the trend is "stable"; the labels "improving" and
"declining" are only ever returned with at least 2 open_rate samples. -/
theorem get_engagement_analytics_trend_classification
    (ndb : List NewsletterRow) (mdb : List MetricRow) (uid since : String) :
    ((get_engagement_analytics ndb mdb uid since).trend = "no_data" ↔
      newslettersInWindow ndb uid since = [] ∨
      metricsForNewsletters mdb
        ((newslettersInWindow ndb uid since).map (fun n => n.id)) = []) ∧
    (metricsForNewsletters mdb
        ((newslettersInWindow ndb uid since).map (fun n => n.id)) ≠ [] →
      newslettersInWindow ndb uid since ≠ [] →
      (openRatesOf (metricsForNewsletters mdb
        ((newslettersInWindow ndb uid since).map (fun n => n.id)))).length < 2 →
      (get_engagement_analytics ndb mdb uid since).trend = "stable") ∧
    ((get_engagement_analytics ndb mdb uid since).trend = "improving" ∨
      (get_engagement_analytics ndb mdb uid since).trend = "declining" →
      2 ≤ (openRatesOf (metricsForNewsletters mdb
        ((newslettersInWindow ndb uid since).map (fun n => n.id)))).length) := by
  rw [get_engagement_analytics_trend_eq]
  by_cases hn : (newslettersInWindow ndb uid since).isEmpty
  · rw [if_pos hn]
    simp only [List.isEmpty_iff] at hn
    refine ⟨by simp [hn], fun _ hne => absurd hn hne, ?_⟩
    intro hcontra
    rcases hcontra with h | h <;> exact absurd h (by decide)
  · rw [if_neg hn]
    simp only [List.isEmpty_iff] at hn
    by_cases hm : (metricsForNewsletters mdb
        ((newslettersInWindow ndb uid since).map (fun n => n.id))).isEmpty
    · rw [if_pos hm]
      simp only [List.isEmpty_iff] at hm
      refine ⟨by simp [hm], fun hne _ => absurd hm hne, ?_⟩
      intro hcontra
      rcases hcontra with h | h <;> exact absurd h (by decide)
    · rw [if_neg hm]
      simp only [List.isEmpty_iff] at hm
      refine ⟨?_, fun _ _ hlt => trendOf_short _ hlt, ?_⟩
      · simp only [hn, hm, or_self, iff_false]
        rcases trendOf_mem (openRatesOf (metricsForNewsletters mdb
            ((newslettersInWindow ndb uid since).map (fun n => n.id)))) with
          h | h | h <;> rw [h] <;> decide
      · intro htrend
        by_contra hlt
        push_neg at hlt
        rw [trendOf_short _ hlt] at htrend
        rcases htrend with h | h <;> exact absurd h (by decide)

/-- Witness for C2 amended: on an empty database the trend is "no_data";
on the one-sample database of the counterexample it is "stable". -/
theorem get_engagement_analytics_trend_classification_witness :
    (get_engagement_analytics [] [] ("u1") ("2024-01-01")).trend = "no_data" ∧
    (get_engagement_analytics
      [{ id := "n1", user_id := "u1", status := "sent",
         created_at := "2024-01-02", accepted_at := none }]
      [{ newsletter_id := "n1", metric_type := "open_rate", value := 50 }]
      "u1" "2024-01-01").trend = "stable" := by
  constructor
  · exact (get_engagement_analytics_trend_classification [] [] ("u1")
      ("2024-01-01")).1.mpr (Or.inl rfl)
  · exact (get_engagement_analytics_trend_classification _ _ ("u1")
      ("2024-01-01")).2.1 (by decide) (by decide) (by decide)

/-! ### RSS summary cleaning (content_aggregator.py, `clean_html`) -/

/-- Scan past the body of an HTML tag: given the characters following a
`<`, return the input after the first `>` provided at least one non-`>`
character precedes it — the shape matched by the regex `<[^>]+>` — and
`none` otherwise. -/
def dropAfterGt : List Char → Option (List Char)
  | [] => none
  | c :: rest => if c == '>' then some rest else dropAfterGt rest

/-- The tag body scan of `<[^>]+>` starting right after a `<`: fails when
the input is empty or starts with `>` (the `[^>]+` needs at least one
character). -/
def splitTag : List Char → Option (List Char)
  | [] => none
  | c :: rest => if c == '>' then none else dropAfterGt rest

/-- Model of `re.sub(r'<[^>]+>', '', ...)`: left-to-right removal of
non-overlapping tag matches; an unmatched `<` is kept.  Fuel (the input
length suffices) makes the recursion structural. -/
def stripTagsF : Nat → List Char → List Char
  | 0, l => l
  | _ + 1, [] => []
  | fuel + 1, c :: rest =>
      if c == '<' then
        match splitTag rest with
        | some rem => stripTagsF fuel rem
        | none => c :: stripTagsF fuel rest
      else c :: stripTagsF fuel rest

def stripTags (l : List Char) : List Char := stripTagsF l.length l

/-- Adjacent-duplicate-space removal, the collapsing half of
`re.sub(r'\s+', ' ', ...)` after every whitespace character has been
mapped to a space. -/
def squeezeAux : Char → List Char → List Char
  | _, [] => []
  | prev, c :: rest =>
      if prev == ' ' && c == ' ' then squeezeAux c rest
      else c :: squeezeAux c rest

def squeeze : List Char → List Char
  | [] => []
  | c :: rest => c :: squeezeAux c rest

/-- Model of `re.sub(r'\s+', ' ', ...)`: replace every maximal whitespace run with
a single space. -/
def collapseWs (l : List Char) : List Char :=
  squeeze (l.map (fun c => if c.isWhitespace then ' ' else c))

/-- Remove trailing whitespace (keeping a character exactly when a
non-whitespace character follows it or it is non-whitespace itself). -/
def dropTrailingWs : List Char → List Char
  | [] => []
  | c :: rest =>
      let r := dropTrailingWs rest
      if r.isEmpty && c.isWhitespace then [] else c :: r

/-- Python's `str.strip()`: drop whitespace from both ends. -/
def pyStripChars (l : List Char) : List Char :=
  dropTrailingWs (l.dropWhile (fun c => c.isWhitespace))

def pyStrip (s : String) : String := String.mk (pyStripChars s.data)

/-- The cleaned text of `clean_html` before the length cap: tags removed,
whitespace collapsed, ends stripped. -/
def cleanedText (html : String) : List Char :=
  pyStripChars (collapseWs (stripTags html.data))

/-- Model of `clean_html` (content_aggregator.py): empty input stays empty;
otherwise strip tags, collapse whitespace, strip the ends, and when the
result exceeds 300 characters keep the first 300 and append `"..."`. -/
def clean_html (html : String) : String :=
  if html == "" then ""
  else if (cleanedText html).length > 300 then
    String.mk ((cleanedText html).take 300) ++ "..."
  else String.mk (cleanedText html)

set_option maxRecDepth 4096 in
/-- C4 counterexample.  301 copies of 'a' survive cleaning untouched, so
the truncation path appends the three-character ellipsis to the first 300
characters and the returned summary has length 303 — more than the 300
the claim allows. -/
theorem clean_html_length_counterexample :
    (clean_html (String.mk (List.replicate 301 'a'))).length = 303 ∧
    ¬(clean_html (String.mk (List.replicate 301 'a'))).length ≤ 300 := by
  constructor
  · decide
  · decide

/-- Two adjacent whitespace characters somewhere in the list. -/
def hasAdjacentWs : List Char → Bool
  | a :: b :: rest =>
      (a.isWhitespace && b.isWhitespace) || hasAdjacentWs (b :: rest)
  | _ => false

/-- Two adjacent space characters somewhere in the list. -/
def hasTwoSpaces : List Char → Bool
  | a :: b :: rest => (a == ' ' && b == ' ') || hasTwoSpaces (b :: rest)
  | _ => false

lemma squeezeAux_subset (prev : Char) (l : List Char) :
    ∀ c ∈ squeezeAux prev l, c ∈ l := by
  induction l generalizing prev with
  | nil => simp [squeezeAux]
  | cons a rest ih =>
      intro c hc
      simp only [squeezeAux] at hc
      split at hc
      · exact List.mem_cons_of_mem _ (ih a c hc)
      · rcases List.mem_cons.mp hc with hc | hc
        · exact hc ▸ List.mem_cons_self _ _
        · exact List.mem_cons_of_mem _ (ih a c hc)

lemma collapseWs_ws_eq_space (l : List Char) :
    ∀ c ∈ collapseWs l, c.isWhitespace → c = ' ' := by
  intro c hc hws
  have hmem : c ∈ l.map (fun c => if c.isWhitespace then ' ' else c) := by
    unfold collapseWs squeeze at hc
    split at hc
    · exact absurd hc (List.not_mem_nil c)
    · rename_i d rest heq
      rw [heq]
      rcases List.mem_cons.mp hc with hc | hc
      · exact hc ▸ List.mem_cons_self _ _
      · exact List.mem_cons_of_mem _ (squeezeAux_subset d rest c hc)
  rcases List.mem_map.mp hmem with ⟨x, _, hx⟩
  by_cases hxw : x.isWhitespace
  · rw [← hx, if_pos hxw]
  · rw [← hx, if_neg hxw] at hws
    exact absurd hws hxw

lemma squeezeAux_no_two_spaces (l : List Char) (prev : Char) :
    hasTwoSpaces (prev :: squeezeAux prev l) = false := by
  induction l generalizing prev with
  | nil => rfl
  | cons c rest ih =>
      simp only [squeezeAux]
      split
      · rename_i h
        have hp : prev = ' ' := beq_iff_eq.mp ((Bool.and_eq_true _ _).mp h).1
        have hc : c = ' ' := beq_iff_eq.mp ((Bool.and_eq_true _ _).mp h).2
        rw [hp, ← hc]
        exact ih c
      · rename_i h
        show ((prev == ' ' && c == ' ') ||
          hasTwoSpaces (c :: squeezeAux c rest)) = false
        rw [Bool.or_eq_false_iff]
        exact ⟨Bool.not_eq_true _ ▸ h, ih c⟩

lemma squeeze_no_two_spaces (l : List Char) :
    hasTwoSpaces (squeeze l) = false := by
  unfold squeeze
  split
  · rfl
  · rename_i c rest
    exact squeezeAux_no_two_spaces rest c

lemma hasTwoSpaces_tail (a : Char) (l : List Char)
    (h : hasTwoSpaces (a :: l) = false) : hasTwoSpaces l = false := by
  cases l with
  | nil => rfl
  | cons b rest =>
      have hcons : ((a == ' ' && b == ' ') ||
          hasTwoSpaces (b :: rest)) = false := h
      exact (Bool.or_eq_false_iff.mp hcons).2

lemma hasTwoSpaces_append_left (l t : List Char)
    (h : hasTwoSpaces (l ++ t) = false) : hasTwoSpaces l = false := by
  induction l with
  | nil => rfl
  | cons a rest ih =>
      cases rest with
      | nil => rfl
      | cons b rs =>
          have hcons : ((a == ' ' && b == ' ') ||
              hasTwoSpaces ((b :: rs) ++ t)) = false := h
          rw [Bool.or_eq_false_iff] at hcons
          show ((a == ' ' && b == ' ') || hasTwoSpaces (b :: rs)) = false
          rw [Bool.or_eq_false_iff]
          exact ⟨hcons.1, ih hcons.2⟩

lemma hasTwoSpaces_dropWhile (p : Char → Bool) (l : List Char)
    (h : hasTwoSpaces l = false) :
    hasTwoSpaces (l.dropWhile p) = false := by
  induction l with
  | nil => exact h
  | cons a rest ih =>
      rw [List.dropWhile_cons]
      split
      · exact ih (hasTwoSpaces_tail a rest h)
      · exact h

lemma dropTrailingWs_front (l : List Char) :
    ∃ t, dropTrailingWs l ++ t = l := by
  induction l with
  | nil => exact ⟨[], rfl⟩
  | cons c rest ih =>
      obtain ⟨t, ht⟩ := ih
      simp only [dropTrailingWs]
      split
      · exact ⟨c :: rest, rfl⟩
      · exact ⟨t, by simp [ht]⟩

lemma dropTrailingWs_getLast (l : List Char) :
    ∀ c, (dropTrailingWs l).getLast? = some c → c.isWhitespace = false := by
  induction l with
  | nil => intro c h; exact absurd h (by simp [dropTrailingWs])
  | cons a rest ih =>
      intro c h
      simp only [dropTrailingWs] at h
      split at h
      · exact absurd h (by simp)
      · rename_i hcond
        cases hr : dropTrailingWs rest with
        | nil =>
            rw [hr] at h hcond
            simp only [List.getLast?_singleton, Option.some.injEq] at h
            subst h
            simpa using hcond
        | cons d ds =>
            rw [hr] at h
            rw [List.getLast?_cons_cons] at h
            exact ih c (hr ▸ h)

lemma pyStripChars_head (l : List Char) :
    ∀ c, (pyStripChars l).head? = some c → c.isWhitespace = false := by
  intro c h
  unfold pyStripChars at h
  obtain ⟨t, ht⟩ := dropTrailingWs_front (l.dropWhile (fun c => c.isWhitespace))
  have hhead : (l.dropWhile (fun c => c.isWhitespace)).head? = some c := by
    cases hd : dropTrailingWs (l.dropWhile (fun c => c.isWhitespace)) with
    | nil => rw [hd] at h; exact absurd h (by simp)
    | cons d ds =>
        rw [hd] at h ht
        simp only [List.head?_cons, Option.some.injEq] at h
        rw [← ht, h]
        rfl
  have := List.head?_dropWhile_not (fun c => c.isWhitespace) l
  rw [hhead] at this
  simpa using this

lemma pyStripChars_subset (l : List Char) :
    ∀ c ∈ pyStripChars l, c ∈ l := by
  intro c hc
  unfold pyStripChars at hc
  obtain ⟨t, ht⟩ := dropTrailingWs_front (l.dropWhile (fun c => c.isWhitespace))
  have : c ∈ l.dropWhile (fun c => c.isWhitespace) := by
    rw [← ht]
    exact List.mem_append_left t hc
  exact (List.dropWhile_sublist _).mem this

lemma pyStripChars_no_two_spaces (l : List Char)
    (h : hasTwoSpaces l = false) :
    hasTwoSpaces (pyStripChars l) = false := by
  unfold pyStripChars
  obtain ⟨t, ht⟩ := dropTrailingWs_front (l.dropWhile (fun c => c.isWhitespace))
  have h2 : hasTwoSpaces (l.dropWhile (fun c => c.isWhitespace)) = false :=
    hasTwoSpaces_dropWhile _ l h
  rw [← ht] at h2
  exact hasTwoSpaces_append_left _ t h2

lemma pyStripChars_getLast (l : List Char) :
    ∀ c, (pyStripChars l).getLast? = some c → c.isWhitespace = false :=
  fun c h => dropTrailingWs_getLast _ c h

lemma hasAdjacentWs_of_spaces (l : List Char)
    (hsp : hasTwoSpaces l = false)
    (hws : ∀ c ∈ l, c.isWhitespace → c = ' ') :
    hasAdjacentWs l = false := by
  induction l with
  | nil => rfl
  | cons a rest ih =>
      cases rest with
      | nil => rfl
      | cons b rs =>
          show ((a.isWhitespace && b.isWhitespace) ||
            hasAdjacentWs (b :: rs)) = false
          rw [Bool.or_eq_false_iff]
          constructor
          · by_cases haw : a.isWhitespace
            · by_cases hbw : b.isWhitespace
              · exfalso
                have ha := hws a (List.mem_cons_self _ _) haw
                have hb := hws b (List.mem_cons_of_mem _
                  (List.mem_cons_self _ _)) hbw
                have hcons : ((a == ' ' && b == ' ') ||
                    hasTwoSpaces (b :: rs)) = false := hsp
                rw [Bool.or_eq_false_iff] at hcons
                exact absurd hcons.1 (by simp [ha, hb])
              · simp [hbw]
            · simp [haw]
          · exact ih (hasTwoSpaces_tail a _ hsp)
              (fun c hc hcw => hws c (List.mem_cons_of_mem _ hc) hcw)

lemma cleanedText_no_adjacent_ws (s : String) :
    hasAdjacentWs (cleanedText s) = false := by
  unfold cleanedText collapseWs
  apply hasAdjacentWs_of_spaces
  · exact pyStripChars_no_two_spaces _
      (squeeze_no_two_spaces _)
  · intro c hc hcw
    exact collapseWs_ws_eq_space (stripTags s.data) c
      (pyStripChars_subset _ c hc) hcw

/-- C4 amended.  For every HTML input the summary produced by
`clean_html` is tag-stripped and whitespace-collapsed — the cleaned text
contains no two adjacent whitespace characters and neither starts nor
ends with whitespace — and is at most 303 characters long: up to 300
characters of cleaned content, with the 3-character ellipsis "..."
appended exactly when the cleaned text exceeded 300 characters. -/
theorem clean_html_spec (s : String) :
    (clean_html s).length ≤ 303 ∧
    ((cleanedText s).length ≤ 300 → clean_html s = String.mk (cleanedText s)) ∧
    ((cleanedText s).length > 300 →
      clean_html s = String.mk ((cleanedText s).take 300) ++ "...") ∧
    hasAdjacentWs (cleanedText s) = false ∧
    (∀ c, (cleanedText s).head? = some c → c.isWhitespace = false) ∧
    (∀ c, (cleanedText s).getLast? = some c → c.isWhitespace = false) := by
  refine ⟨?_, ?_, ?_, cleanedText_no_adjacent_ws s, ?_, ?_⟩
  · unfold clean_html
    split
    · decide
    · split
      · rename_i hgt
        have h1 : (String.mk ((cleanedText s).take 300) ++ "...").length =
            ((cleanedText s).take 300).length + 3 := by
          rw [String.length_append]
          rfl
        rw [h1, List.length_take]
        omega
      · rename_i hle
        have : (String.mk (cleanedText s)).length = (cleanedText s).length :=
          rfl
        omega
  · intro hle
    unfold clean_html
    by_cases h0 : (s == "") = true
    · have hs : s = "" := beq_iff_eq.mp h0
      subst hs
      decide
    · rw [if_neg h0, if_neg (by omega)]
  · intro hgt
    have h0 : ¬((s == "") = true) := by
      intro h0
      have hs : s = "" := beq_iff_eq.mp h0
      subst hs
      exact absurd hgt (by decide)
    unfold clean_html
    rw [if_neg h0, if_pos hgt]
  · unfold cleanedText
    exact pyStripChars_head _
  · unfold cleanedText
    exact pyStripChars_getLast _

set_option maxRecDepth 4096 in
/-- Witness for C4 amended: a short tagged input takes the untruncated
branch; 301 copies of 'a' take the truncation branch. -/
theorem clean_html_spec_witness :
    clean_html ("<b>hi there</b>") =
      String.mk (cleanedText ("<b>hi there</b>")) ∧
    clean_html (String.mk (List.replicate 301 'a')) =
      String.mk ((cleanedText (String.mk (List.replicate 301 'a'))).take 300)
        ++ "..." ∧
    (clean_html ("<b>hi there</b>")).length ≤ 303 :=
  ⟨(clean_html_spec ("<b>hi there</b>")).2.1 (by decide),
   (clean_html_spec (String.mk (List.replicate 301 'a'))).2.2.1 (by decide),
   (clean_html_spec ("<b>hi there</b>")).1⟩

/-! ### Trend extraction (content_aggregator.py) -/

/-- Python's `needle in hay` substring test. -/
def listInfix (p : List Char) : List Char → Bool
  | [] => p.isEmpty
  | c :: rest => p.isPrefixOf (c :: rest) || listInfix p rest

def strContains (hay needle : String) : Bool := listInfix needle.data hay.data

/-- Python's `str.count` for a non-empty needle: left-to-right count of
non-overlapping occurrences. -/
def countSubstrF (p : List Char) : Nat → List Char → Nat
  | 0, _ => 0
  | _ + 1, [] => 0
  | fuel + 1, c :: rest =>
      if p.isPrefixOf (c :: rest) then
        1 + countSubstrF p fuel (List.drop (p.length - 1) rest)
      else countSubstrF p fuel rest

def countSubstr (hay needle : String) : Nat :=
  countSubstrF needle.data (hay.data.length + 1) hay.data

/-- Python's `str.title()` restricted to its effect on ASCII text: an
alphabetic character is upper-cased when the previous character is not
alphabetic and lower-cased otherwise. -/
def titleAux : Bool → List Char → List Char
  | _, [] => []
  | prevAlpha, c :: rest =>
      (if c.isAlpha then (if prevAlpha then c.toLower else c.toUpper) else c)
        :: titleAux c.isAlpha rest

def pyTitle (s : String) : String := String.mk (titleAux false s.data)

/-- Maximal runs of word characters in a character list. -/
def wordRunsAux : List Char → List Char → List (List Char)
  | [], acc => if acc.isEmpty then [] else [acc.reverse]
  | c :: rest, acc =>
      if isWordChar c then wordRunsAux rest (c :: acc)
      else if acc.isEmpty then wordRunsAux rest []
      else acc.reverse :: wordRunsAux rest []

def wordRuns (l : List Char) : List (List Char) := wordRunsAux l []

/-- The tokenizer `re.findall(r'\b[a-zA-Z]{3,}\b', text.lower())`: a
match is a maximal word-character run that consists entirely of letters
and has length at least 3 (a run containing a digit or underscore has no
interior word boundary, so it yields no match at all). -/
def regexAlphaWords (text : String) : List String :=
  ((wordRuns (strLower text).data).filter
    (fun r => r.all (fun c => c.isAlpha) && decide (r.length ≥ 3))).map
    String.mk

/-- The stop-word set of `extract_keywords_from_text`
(content_aggregator.py), verbatim. -/
def stop_words : List String :=
  ["the", "a", "an", "and", "or", "but", "in", "on", "at", "to", "for",
   "of", "with", "by", "is", "are", "was", "were", "be", "been", "have",
   "has", "had", "do", "does", "did", "will", "would", "could", "should",
   "may", "might", "can", "this", "that", "these", "those", "i", "you",
   "he", "she", "it", "we", "they", "new", "more", "most", "also", "get",
   "go", "make", "see", "know", "think", "take", "come", "say", "use"]

/-- A `collections.Counter` over a word list, modelled as an association
list in first-occurrence order. -/
def insertCount : List (String × Nat) → String → List (String × Nat)
  | [], w => [(w, 1)]
  | (k, c) :: rest, w =>
      if k == w then (k, c + 1) :: rest else (k, c) :: insertCount rest w

def counterList (ws : List String) : List (String × Nat) :=
  ws.foldl insertCount []

/-- Model of `extract_keywords_from_text` (content_aggregator.py): tokenize,
remove stop words, count. -/
def extract_keywords_from_text (text : String) : List (String × Nat) :=
  counterList ((regexAlphaWords text).filter
    (fun w => !(stop_words.contains w)))

/-- Stable descending insertion by count: a new element passes an
existing one only when its count is strictly greater, so equal counts
keep first-occurrence order — the tie behaviour of
`Counter.most_common`. -/
def insertDesc (x : String × Nat) : List (String × Nat) →
    List (String × Nat)
  | [] => [x]
  | y :: rest => if x.2 > y.2 then x :: y :: rest else y :: insertDesc x rest

/-- The stable descending sort underlying `Counter.most_common`:
elements are inserted in first-occurrence order, so equal counts keep
that order. -/
def sortCountDesc (l : List (String × Nat)) : List (String × Nat) :=
  l.foldl (fun acc x => insertDesc x acc) []

/-- Model of `Counter.most_common(n)`: the n highest-count entries, counts
descending, ties in first-occurrence order. -/
def mostCommon (n : Nat) (l : List (String × Nat)) : List (String × Nat) :=
  (sortCountDesc l).take n

/-- A detected trend record (content_aggregator.py, `extract_trends`). -/
structure Trend where
  trend_title : String
  explainer : String
  source_link : String
  frequency : Nat
  related_articles : List Article
deriving DecidableEq, Repr

/-- Model of `generate_trend_explanation` (content_aggregator.py): the first of
the canned explanation templates. -/
def generate_trend_explanation (keyword : String) (frequency : Nat) :
    String :=
  "\x27" ++ pyTitle keyword ++ "\x27 appears frequently across " ++
    toString frequency ++
    " recent articles, indicating growing interest in this topic."

/-- The lower-cased `title summary` text of an article used for
scoring. -/
def articleContent (a : Article) : String :=
  strLower a.title ++ " " ++ strLower a.summary

/-- The score of `find_representative_article`: occurrences of the
keyword in title+summary, plus 2 when the keyword appears in the
title. -/
def articleScore (a : Article) (kw : String) : Nat :=
  countSubstr (articleContent a) (strLower kw) +
    (if strContains (strLower a.title) (strLower kw) then 2 else 0)

/-- Model of `find_representative_article` (content_aggregator.py): best score
wins, strictly-greater replacement, initial best none with score 0. -/
def findRepBest (kw : String) :
    List Article → Option Article → Nat → Option Article
  | [], best, _ => best
  | a :: rest, best, bestScore =>
      if articleScore a kw > bestScore then
        findRepBest kw rest (some a) (articleScore a kw)
      else findRepBest kw rest best bestScore

def find_representative_article (articles : List Article) (kw : String) :
    Option Article :=
  findRepBest kw articles none 0

/-- The combined title+summary corpus of `extract_trends`:
`" ".join(all_text)` where `all_text` alternates titles and summaries. -/
def trendCorpus (articles : List Article) : String :=
  String.intercalate (" ")
    (articles.foldr (fun a acc => a.title :: a.summary :: acc) [])

/-- The keyword counter of `extract_trends`. -/
def trendKeywords (articles : List Article) : List (String × Nat) :=
  extract_keywords_from_text (trendCorpus articles)

/-- The trend record built for a qualifying keyword. -/
def mkTrendRecord (articles : List Article) (kw : String) (c : Nat) :
    Trend :=
  { trend_title := pyTitle kw
    explainer := generate_trend_explanation kw c
    source_link :=
      match find_representative_article articles kw with
      | some a => a.link
      | none => "#"
    frequency := c
    related_articles :=
      (articles.filter (fun a =>
        strContains (strLower (a.title ++ " " ++ a.summary))
          (strLower kw))).take 3 }

/-- Model of `extract_trends` (content_aggregator.py): take the `max_trends` most
common keywords FIRST, then keep those of length > 3 with count > 1 and
build a trend record for each. -/
def extract_trends (articles : List Article) (maxTrends : Nat) :
    List Trend :=
  if articles.isEmpty then []
  else
    (mostCommon maxTrends (trendKeywords articles)).filterMap
      (fun kc =>
        if kc.1.length > 3 && kc.2 > 1 then
          some (mkTrendRecord articles kc.1 kc.2)
        else none)

lemma mem_insertDesc (x y : String × Nat) (l : List (String × Nat)) :
    x ∈ insertDesc y l ↔ x = y ∨ x ∈ l := by
  induction l with
  | nil => simp [insertDesc]
  | cons z rest ih =>
      simp only [insertDesc]
      split
      · simp [List.mem_cons]
      · rw [List.mem_cons, ih, List.mem_cons]
        tauto

lemma mem_sortCountDesc_aux (x : String × Nat) (l acc : List (String × Nat)) :
    x ∈ l.foldl (fun acc y => insertDesc y acc) acc ↔ x ∈ acc ∨ x ∈ l := by
  induction l generalizing acc with
  | nil => simp
  | cons y rest ih =>
      rw [List.foldl_cons, ih, mem_insertDesc, List.mem_cons]
      tauto

lemma mem_mostCommon (x : String × Nat) (n : Nat)
    (l : List (String × Nat)) (h : x ∈ mostCommon n l) : x ∈ l := by
  unfold mostCommon sortCountDesc at h
  have := List.mem_of_mem_take h
  rw [mem_sortCountDesc_aux] at this
  simpa using this

/-- C5 counterexample.  With title "fox fox fox" and summary
"blockchain blockchain" and `max_trends = 1`, the only keyword in the
top-1 cut is "fox" (length 3, disqualified), so `extract_trends` returns
no trend at all — even though "blockchain" (length 10, count 2) is a
qualifying keyword.  The claim that a trend is returned for each
qualifying keyword up to `max_trends` is therefore false on the code:
the `max_trends` cut happens before the qualification filter. -/
theorem extract_trends_prefilter_counterexample :
    let art : Article :=
      { title := "fox fox fox", link := "l",
        summary := "blockchain blockchain", published := "", author := "",
        source := "Example Feed", tags := [], likes := 0 }
    extract_trends [art] 1 = [] ∧
    ("blockchain", 2) ∈ trendKeywords [art] ∧
    ("blockchain" : String).length > 3 ∧ 2 > 1 := by
  refine ⟨by decide, by decide, by decide, by decide⟩

/-- C5 amended.  `extract_trends` returns at most `max_trends` trends;
every returned trend corresponds to a counted keyword of length > 3 with
frequency > 1 and carries the title-cased keyword and its frequency (so a
word occurring only once, or of length ≤ 3, never appears); and every
qualifying keyword AMONG THE `max_trends` MOST FREQUENT keywords yields
its trend record — the cut to `max_trends` candidates happens before the
qualification filter, so a qualifying keyword outside that cut is
dropped. -/
theorem extract_trends_qualifying (articles : List Article) (n : Nat) :
    (extract_trends articles n).length ≤ n ∧
    (∀ t ∈ extract_trends articles n, ∃ kw c,
      (kw, c) ∈ trendKeywords articles ∧ kw.length > 3 ∧ c > 1 ∧
      t.trend_title = pyTitle kw ∧ t.frequency = c) ∧
    (∀ kw c, (kw, c) ∈ mostCommon n (trendKeywords articles) →
      kw.length > 3 → c > 1 →
      mkTrendRecord articles kw c ∈ extract_trends articles n) := by
  refine ⟨?_, ?_, ?_⟩
  · unfold extract_trends
    split
    · simp
    · exact le_trans (List.length_filterMap_le _ _)
        (le_trans (List.length_take_le _ _) (le_refl n))
  · intro t ht
    unfold extract_trends at ht
    split at ht
    · exact absurd ht (List.not_mem_nil t)
    · obtain ⟨kc, hkc, hf⟩ := List.mem_filterMap.mp ht
      split at hf
      · rename_i hcond
        rw [Bool.and_eq_true] at hcond
        refine ⟨kc.1, kc.2, mem_mostCommon _ n _ hkc, by
          simpa using hcond.1, by simpa using hcond.2, ?_, ?_⟩
        · rw [← Option.some_inj.mp hf]
          rfl
        · rw [← Option.some_inj.mp hf]
          rfl
      · exact absurd hf (by simp)
  · intro kw c hmem h3 h1
    unfold extract_trends
    by_cases he : articles.isEmpty
    · rw [List.isEmpty_iff] at he
      subst he
      have hk : trendKeywords ([] : List Article) = [] := by decide
      rw [hk] at hmem
      exact absurd hmem (by simp [mostCommon, sortCountDesc])
    · rw [if_neg he]
      exact List.mem_filterMap.mpr ⟨(kw, c), hmem,
        by rw [if_pos (by simp [h3, h1])]⟩

/-- Witness for C5 amended: with "blockchain" occurring 4 times in the
combined text and no other word more than once, the output of
`extract_trends` with `max_trends = 5` includes the trend titled
"Blockchain" with frequency 4. -/
theorem extract_trends_qualifying_witness :
    let art : Article :=
      { title := "blockchain rises", link := "l2",
        summary := "blockchain blockchain blockchain soars",
        published := "", author := "", source := "Example Feed",
        tags := [], likes := 0 }
    mkTrendRecord [art] ("blockchain") 4 ∈ extract_trends [art] 5 ∧
    (mkTrendRecord [art] ("blockchain") 4).trend_title = "Blockchain" ∧
    (mkTrendRecord [art] ("blockchain") 4).frequency = 4 ∧
    (extract_trends [art] 5).length ≤ 5 := by
  intro art
  refine ⟨(extract_trends_qualifying [art] 5).2.2 ("blockchain") 4
      (by decide) (by decide) (by decide),
    by decide, by decide,
    (extract_trends_qualifying [art] 5).1⟩

/-! ### Social media generator (social_media_generator.py) -/

/-- Python's `str.split(sep)` for a non-empty separator: split at every
non-overlapping occurrence, keeping empty pieces.  Fuel (the input length
suffices) makes the recursion structural. -/
def pySplitF (sep : List Char) : Nat → List Char → List Char → List String
  | 0, acc, rest => [String.mk (acc.reverse ++ rest)]
  | _ + 1, acc, [] => [String.mk acc.reverse]
  | fuel + 1, acc, c :: rest =>
      if sep.isPrefixOf (c :: rest) then
        String.mk acc.reverse ::
          pySplitF sep fuel [] (List.drop (sep.length - 1) rest)
      else pySplitF sep fuel (c :: acc) rest

def pySplit (s sep : String) : List String :=
  pySplitF sep.data (s.data.length + 1) [] s.data

/-- Model of `re.match(r'\d+[/\.]', line)`: one or more digits followed by `/` or
`.` at the start of the line (backtracking over `\d+` can only expose
further digits, so the maximal digit run is equivalent). -/
def numSepAux : List Char → Bool
  | c :: rest =>
      if c == '/' || c == '.' then true
      else if c.isDigit then numSepAux rest
      else false
  | [] => false

def matchNumSep : List Char → Bool
  | c :: rest => c.isDigit && numSepAux rest
  | [] => false

/-- Model of `re.match(r'Tweet \d+:', line)`. -/
def matchTweetN (l : List Char) : Bool :=
  if ("Tweet ".data).isPrefixOf l then
    match l.drop 6 with
    | c :: _ =>
        c.isDigit &&
          (match (l.drop 6).dropWhile (fun c => c.isDigit) with
           | d :: _ => d == ':'
           | [] => false)
    | [] => false
  else false

/-- A line that starts a new tweet: the pattern list of
`parse_twitter_thread` is `[\d+[/\.], Tweet \d+:, \n\n]`; the third
pattern can never match a line (lines contain no newline). -/
def isNewTweetLine (l : List Char) : Bool :=
  matchNumSep l || matchTweetN l

/-- Model of `re.sub(r'^\d+[/\.\)]\s*', '', line)`: remove a leading digit run,
one of `/`, `.`, `)`, and any following whitespace. -/
def stripNumPrefix (l : List Char) : List Char :=
  match l with
  | c :: _ =>
      if c.isDigit then
        match l.dropWhile (fun c => c.isDigit) with
        | d :: rest =>
            if d == '/' || d == '.' || d == ')' then
              rest.dropWhile (fun c => c.isWhitespace)
            else l
        | [] => l
      else l
  | [] => l

/-- Model of `re.sub(r'^Tweet \d+:\s*', '', line)`. -/
def stripTweetNPrefix (l : List Char) : List Char :=
  if ("Tweet ".data).isPrefixOf l then
    match l.drop 6 with
    | c :: _ =>
        if c.isDigit then
          match (l.drop 6).dropWhile (fun c => c.isDigit) with
          | d :: rest =>
              if d == ':' then rest.dropWhile (fun c => c.isWhitespace)
              else l
          | [] => l
        else l
    | [] => l
  else l

/-- The accumulation loop of `parse_twitter_thread`: stripped empty lines
are skipped; a line recognized as starting a new tweet flushes the
current tweet (when non-empty) after stripping its numbering, otherwise
the line is appended to the current tweet with a space; the final
current tweet is flushed at the end. -/
def parseTweetLinesAux : List String → String → List String
  | [], cur => if cur ≠ "" then [pyStrip cur] else []
  | l :: rest, cur =>
      let line := pyStrip l
      if line == "" then parseTweetLinesAux rest cur
      else if isNewTweetLine line.data then
        let line' := String.mk (stripTweetNPrefix (stripNumPrefix line.data))
        if cur ≠ "" then pyStrip cur :: parseTweetLinesAux rest line'
        else parseTweetLinesAux rest (cur ++ " " ++ line')
      else parseTweetLinesAux rest (cur ++ " " ++ line)

/-- Model of `parse_twitter_thread` (social_media_generator.py): split into lines,
accumulate tweets; if nothing was parsed, fall back to splitting on blank
lines; cap the result at 6 tweets. -/
def parse_twitter_thread (threadText : String) : List String :=
  let tweets := parseTweetLinesAux (pySplit threadText ("\n")) ""
  let tweets :=
    if tweets.isEmpty then
      ((pySplit threadText ("\n\n")).map pyStrip).filter (fun x => x ≠ "")
    else tweets
  tweets.take 6

/-- Model of `truncate_tweet` (social_media_generator.py): hard-truncate to the
280-character limit with a 3-character ellipsis reservation. -/
def truncate_tweet (tweet : String) (maxLength : Nat := 280) : String :=
  if tweet.length ≤ maxLength then tweet
  else String.mk (tweet.data.take (maxLength - 3)) ++ "..."

/-- The `posts` list built by `generate_twitter_thread`
(social_media_generator.py): the parsed tweets of the raw LLM response,
each passed through `truncate_tweet`. -/
def generateTwitterThreadPosts (threadText : String) : List String :=
  (parse_twitter_thread threadText).map (fun t => truncate_tweet t)

lemma truncate_tweet_length_le (t : String) :
    (truncate_tweet t).length ≤ 280 := by
  unfold truncate_tweet
  split
  · assumption
  · rw [String.length_append]
    have h1 : (String.mk (t.data.take (280 - 3))).length =
        (t.data.take 277).length := rfl
    rw [h1, List.length_take]
    have h2 : ("..." : String).length = 3 := rfl
    omega

/-- C8.  For every raw LLM thread response, the returned posts list has
at most 6 elements and every post has length at most 280 characters. -/
theorem twitter_thread_posts_bounded (threadText : String) :
    (generateTwitterThreadPosts threadText).length ≤ 6 ∧
    (∀ p ∈ generateTwitterThreadPosts threadText, p.length ≤ 280) := by
  constructor
  · unfold generateTwitterThreadPosts parse_twitter_thread
    rw [List.length_map]
    exact List.length_take_le _ _
  · intro p hp
    obtain ⟨q, _, hq⟩ := List.mem_map.mp hp
    exact hq ▸ truncate_tweet_length_le q

/-- Witness for C8: a concrete two-tweet numbered thread parses to tweets
within both bounds. -/
theorem twitter_thread_posts_bounded_witness :
    (generateTwitterThreadPosts ("1/ hello\n2/ world")).length ≤ 6 ∧
    ("hello" : String).length ≤ 280 :=
  ⟨(twitter_thread_posts_bounded ("1/ hello\n2/ world")).1,
   (twitter_thread_posts_bounded ("1/ hello\n2/ world")).2 ("hello")
     (by decide)⟩

/-! ### Draft generator (draft_generator.py) -/

/-- The abstract LLM completion endpoint used by
`generate_newsletter_with_ai`: a response (or a raised exception,
modelled as `none`) per article-summary request, and the intro and
conclusion responses. -/
structure LlmOracle where
  summarize : Article → Option String
  intro : String
  conclusion : String

/-- The combined display title: append the stripped topic only when the
topic's text does not already occur in the title, case-insensitively. -/
def combinedTitle (title topic : String) : String :=
  if strContains (strLower title) (strLower topic) then pyStrip title
  else pyStrip title ++ " " ++ pyStrip topic

/-- RSS-origin articles: source neither "Twitter" nor "YouTube". -/
def rssArticlesOf (articles : List Article) : List Article :=
  articles.filter (fun a => !(a.source == "Twitter" || a.source == "YouTube"))

def twitterPostsOf (articles : List Article) : List Article :=
  articles.filter (fun a => a.source == "Twitter")

def youtubeVideosOf (articles : List Article) : List Article :=
  articles.filter (fun a => a.source == "YouTube")

/-- The per-article fallback summary used when a summary completion call
fails: the first two sentence pieces of the article's own summary,
re-joined with ". " and a trailing period. -/
def fallbackSummary (a : Article) : String :=
  String.intercalate (". ") ((pySplit a.summary (".")).take 2) ++ "."

/-- The trends callout section of `create_html_newsletter_v3`: present
only when any trends exist, naming the top 3 trend titles. -/
def trendsHtml (trends : List Trend) : String :=
  if !trends.isEmpty then
    "\n            <section style=\"padding: 20px 0;\">\n                <h2 style=\"color: #3b82f6; margin-bottom: 15px; font-size: 20px;\">🔥 Trending Today</h2>\n                <div style=\"background: #f0f9ff; padding: 15px; border-radius: 8px; border-left: 4px solid #3b82f6;\">\n        "
      ++ "<p style=\x27margin: 0; color: #1e293b;\x27>Key topics today: "
      ++ String.intercalate (", ")
          ((trends.take 3).map (fun t =>
            "<strong>" ++ t.trend_title ++ "</strong>"))
      ++ "</p>"
      ++ "\n                </div>\n            </section>\n        "
  else ""

/-- One numbered story block of the "Today's Top Stories" section. -/
def articleItemHtml (i : Nat) (a : Article) (summary : String) : String :=
  "\n                <article style=\"margin-bottom: 25px; padding-bottom: 20px; border-bottom: 1px solid #e2e8f0;\">\n                    <h3 style=\"margin: 0 0 8px 0; font-size: 18px; line-height: 1.4;\">\n                        <a href=\""
    ++ a.link
    ++ "\" target=\"_blank\" style=\"color: #1e293b; text-decoration: none;\">\n                            "
    ++ toString i ++ ". " ++ a.title
    ++ "\n                        </a>\n                    </h3>\n                    <p style=\"color: #64748b; margin: 0 0 10px 0; font-size: 13px;\">\n                        📍 "
    ++ a.source ++ " · 📅 " ++ a.published.take 15
    ++ "\n                    </p>\n                    <p style=\"color: #475569; margin: 0 0 10px 0; line-height: 1.6; font-size: 15px;\">\n                        "
    ++ summary
    ++ "\n                    </p>\n                    <a href=\""
    ++ a.link
    ++ "\" target=\"_blank\" style=\"color: #3b82f6; text-decoration: none; font-weight: 600; font-size: 14px;\">\n                        Read full story →\n                    </a>\n                </article>\n            "

/-- The "Today's Top Stories" section of `create_html_newsletter_v3`:
present only when both RSS articles and generated summaries exist
(Python truthiness of `if rss_articles and article_summaries:`); stories
are the zip of the two lists, numbered from 1. -/
def articlesHtml (rss : List Article) (summaries : List String) : String :=
  if !rss.isEmpty && !summaries.isEmpty then
    "\n            <section style=\"padding: 20px 0;\">\n                <h2 style=\"color: #1e293b; margin-bottom: 20px; font-size: 22px; border-bottom: 2px solid #e2e8f0; padding-bottom: 10px;\">📰 Today\x27s Top Stories</h2>\n        "
      ++ String.join ((rss.zip summaries).enum.map
          (fun p => articleItemHtml (p.1 + 1) p.2.1 p.2.2))
      ++ "</section>"
  else ""

/-- One tweet block of the Twitter section. -/
def tweetItemHtml (t : Article) : String :=
  "\n                <div style=\"background: #f8fafc; padding: 15px; margin-bottom: 15px; border-radius: 8px; border-left: 3px solid #1da1f2;\">\n                    <p style=\"color: #64748b; margin: 0 0 8px 0; font-size: 13px;\">\n                        <strong>"
    ++ t.author ++ "</strong> · " ++ t.published.take 15
    ++ "\n                    </p>\n                    <p style=\"color: #1e293b; margin: 0; line-height: 1.5; font-size: 15px;\">\n                        "
    ++ t.summary.take 200
    ++ (if t.summary.length > 200 then "..." else "")
    ++ "\n                    </p>\n                    <p style=\"color: #64748b; margin: 8px 0 0 0; font-size: 13px;\">\n                        ❤️ "
    ++ toString t.likes
    ++ " · <a href=\"" ++ t.link
    ++ "\" style=\"color: #1da1f2; text-decoration: none;\">View tweet →</a>\n                    </p>\n                </div>\n            "

/-- The Twitter section of `create_html_newsletter_v3`. -/
def twitterHtml (posts : List Article) : String :=
  if !posts.isEmpty then
    "\n            <section style=\"padding: 20px 0;\">\n                <h2 style=\"color: #1da1f2; margin-bottom: 15px; font-size: 20px;\">🐦 From Twitter</h2>\n        "
      ++ String.join (posts.map tweetItemHtml)
      ++ "</section>"
  else ""

/-- One video block of the YouTube section. -/
def videoItemHtml (v : Article) : String :=
  "\n                <div style=\"background: #fef2f2; padding: 15px; margin-bottom: 15px; border-radius: 8px; border-left: 3px solid #ff0000;\">\n                    <h3 style=\"margin: 0 0 8px 0; font-size: 16px;\">\n                        <a href=\""
    ++ v.link
    ++ "\" target=\"_blank\" style=\"color: #1e293b; text-decoration: none;\">\n                            🎬 "
    ++ v.title
    ++ "\n                        </a>\n                    </h3>\n                    <p style=\"color: #64748b; margin: 0 0 10px 0; font-size: 13px;\">\n                        📺 "
    ++ v.author ++ " · " ++ v.published.take 15
    ++ "\n                    </p>\n                    <a href=\"" ++ v.link
    ++ "\" target=\"_blank\" style=\"display: inline-block; padding: 6px 12px; background: #ff0000; color: white; text-decoration: none; border-radius: 4px; font-size: 13px;\">\n                        ▶️ Watch Now\n                    </a>\n                </div>\n            "

/-- The YouTube section of `create_html_newsletter_v3`. -/
def youtubeHtml (videos : List Article) : String :=
  if !videos.isEmpty then
    "\n            <section style=\"padding: 20px 0;\">\n                <h2 style=\"color: #ff0000; margin-bottom: 15px; font-size: 20px;\">🎥 Watch This</h2>\n        "
      ++ String.join (videos.map videoItemHtml)
      ++ "</section>"
  else ""

/-- Model of `create_html_newsletter_v3` (draft_generator.py): the final HTML
document — header, intro, trends callout, "Today's Top Stories", Twitter
section, YouTube section, conclusion, footer.  The wall-clock date string
`datetime.now().strftime('%B %d, %Y')` is the `today` parameter. -/
def create_html_newsletter_v3 (title topic tone intro : String)
    (article_summaries : List String) (conclusion : String)
    (rss_articles twitter_posts youtube_videos : List Article)
    (trends : List Trend) (today : String) : String :=
  "\n        <div style=\"max-width: 600px; margin: 0 auto; font-family: -apple-system, BlinkMacSystemFont, \x27Segoe UI\x27, Roboto, sans-serif; line-height: 1.6; color: #333; background: #ffffff;\">\n            \n            <!-- Header -->\n            <header style=\"text-align: center; padding: 30px 20px; background: linear-gradient(135deg, #667eea 0%, #764ba2 100%); color: white;\">\n                <h1 style=\"margin: 0 0 5px 0; font-size: 26px; font-weight: 700;\">"
    ++ title
    ++ "</h1>\n                <p style=\"margin: 0; font-size: 14px; opacity: 0.9;\">\n                    "
    ++ topic ++ " · " ++ today
    ++ "\n                </p>\n            </header>\n\n            <!-- Intro -->\n            <section style=\"padding: 25px 20px 15px 20px;\">\n                <p style=\"color: #1e293b; line-height: 1.6; margin: 0; font-size: 15px;\">\n                    "
    ++ intro
    ++ "\n                </p>\n            </section>\n\n            <!-- Trends -->\n            <div style=\"padding: 0 20px;\">\n                "
    ++ trendsHtml trends
    ++ "\n            </div>\n\n            <!-- Main Articles -->\n            <div style=\"padding: 0 20px;\">\n                "
    ++ articlesHtml rss_articles article_summaries
    ++ "\n            </div>\n\n            <!-- Twitter -->\n            <div style=\"padding: 0 20px;\">\n                "
    ++ twitterHtml twitter_posts
    ++ "\n            </div>\n\n            <!-- YouTube -->\n            <div style=\"padding: 0 20px;\">\n                "
    ++ youtubeHtml youtube_videos
    ++ "\n            </div>\n\n            <!-- Conclusion -->\n            <section style=\"padding: 20px; background: #f8fafc; margin: 20px 20px 0 20px; border-radius: 8px;\">\n                <p style=\"color: #475569; line-height: 1.6; margin: 0; font-size: 14px; text-align: center;\">\n                    "
    ++ conclusion
    ++ "\n                </p>\n            </section>\n\n            <!-- Footer -->\n            <footer style=\"text-align: center; padding: 20px; color: #94a3b8; font-size: 12px;\">\n                <p style=\"margin: 0;\">CreatorPulse · "
    ++ today
    ++ "</p>\n            </footer>\n        </div>\n    "

/-- The fixed template intro of `create_template_only_newsletter`:
counts of RSS articles, tweets and videos (the latter two mentioned only
when present) and the topic. -/
def templateIntro (title topic : String)
    (rss twitter youtube : List Article) : String :=
  "Welcome to " ++ title ++ "! Today we\x27re covering "
    ++ toString rss.length ++ " articles"
    ++ (if !twitter.isEmpty then
          ", " ++ toString twitter.length ++ " tweets" else "")
    ++ (if !youtube.isEmpty then
          ", and " ++ toString youtube.length ++ " videos" else "")
    ++ " in " ++ topic ++ "."

/-- The fixed template conclusion of `create_template_only_newsletter`. -/
def templateConclusion (topic : String) : String :=
  "Thanks for reading! Stay tuned for more " ++ topic ++ " updates."

/-- Model of `create_template_only_newsletter` (draft_generator.py): the non-AI
path — fixed intro/conclusion templates and the same HTML assembly with
an empty summaries list. -/
def create_template_only_newsletter (title topic tone : String)
    (rss twitter youtube : List Article) (trends : List Trend)
    (today : String) : String :=
  create_html_newsletter_v3 title topic tone
    (templateIntro title topic rss twitter youtube) []
    (templateConclusion topic) rss twitter youtube trends today

/-- Result of `generate_newsletter_with_ai`: the produced HTML and the
number of LLM completion calls made. -/
structure GenResult where
  llmCalls : Nat
  html : String

/-- Model of `generate_newsletter_with_ai` (draft_generator.py): partition the
articles by source; with no RSS-origin article, skip AI generation
entirely (zero completion calls) and build the template-only newsletter;
otherwise make one summary call per processed article (falling back to
the article's own summary on a failed call) plus one intro and one
conclusion call, and assemble the full document from the first
`max_articles` RSS articles, up to 3 tweets, up to 3 videos and up to 5
trends. -/
def generate_newsletter_with_ai (o : LlmOracle) (articles : List Article)
    (trends : List Trend) (title topic tone today : String)
    (maxArticles : Nat := 6) : GenResult :=
  if (rssArticlesOf articles).length < 1 then
    { llmCalls := 0,
      html := create_template_only_newsletter (combinedTitle title topic)
        topic tone (rssArticlesOf articles) (twitterPostsOf articles)
        (youtubeVideosOf articles) trends today }
  else
    { llmCalls := ((rssArticlesOf articles).take maxArticles).length + 2,
      html := create_html_newsletter_v3 (combinedTitle title topic) topic
        tone (pyStrip o.intro)
        (((rssArticlesOf articles).take maxArticles).map (fun a =>
          match o.summarize a with
          | some s => pyStrip s
          | none => fallbackSummary a))
        (pyStrip o.conclusion)
        ((rssArticlesOf articles).take maxArticles)
        ((twitterPostsOf articles).take 3)
        ((youtubeVideosOf articles).take 3) (trends.take 5) today }

/-- C7.  When every supplied article is short-form/video content (source
"Twitter" or "YouTube"), `generate_newsletter_with_ai` makes zero LLM
completion calls and returns exactly the template-only document built
with no RSS articles and no summaries — whose "Today's Top Stories"
section is the empty string, since that section is only emitted when
both RSS articles and summaries exist. -/
theorem generate_newsletter_template_only
    (o : LlmOracle) (articles : List Article) (trends : List Trend)
    (title topic tone today : String) (maxArticles : Nat)
    (h : ∀ a ∈ articles, a.source = "Twitter" ∨ a.source = "YouTube") :
    (generate_newsletter_with_ai o articles trends title topic tone today
      maxArticles).llmCalls = 0 ∧
    (generate_newsletter_with_ai o articles trends title topic tone today
        maxArticles).html =
      create_template_only_newsletter (combinedTitle title topic) topic
        tone [] (twitterPostsOf articles) (youtubeVideosOf articles)
        trends today ∧
    articlesHtml [] [] = "" := by
  have hrss : rssArticlesOf articles = [] := by
    rw [rssArticlesOf, List.filter_eq_nil]
    intro a ha
    rcases h a ha with hs | hs <;> simp [hs]
  rw [generate_newsletter_with_ai, hrss]
  exact ⟨rfl, rfl, rfl⟩

/-- Witness for C7: a single tweet-sourced article takes the
template-only path with zero completion calls. -/
theorem generate_newsletter_template_only_witness :
    let tweet : Article :=
      { title := "Tweet by @dev", link := "https://x.com/1",
        summary := "hi", published := "Recently", author := "@dev",
        source := "Twitter", tags := [], likes := 3 }
    let oracle : LlmOracle :=
      { summarize := fun _ => none, intro := "", conclusion := "" }
    (generate_newsletter_with_ai oracle [tweet] [] "Daily" "Tech"
      "Professional" "May 01, 2024" 6).llmCalls = 0 ∧
    articlesHtml [] [] = "" := by
  intro tweet oracle
  refine ⟨(generate_newsletter_template_only oracle [tweet] [] "Daily"
      "Tech" "Professional" "May 01, 2024" 6 ?_).1,
    (generate_newsletter_template_only oracle [tweet] [] "Daily" "Tech"
      "Professional" "May 01, 2024" 6 ?_).2.2⟩
  all_goals
    intro a ha
    rw [List.mem_singleton.mp ha]
    exact Or.inl rfl
